import Mathlib

/-!
Shallow embedding of the Synexa JavaScript client (src/index.ts and
src/file-output.ts).

The remote server, the HTTP transport and the platform fetch are modelled as
oracles supplied to each operation: a list of snapshots the successive
`getPrediction` calls would return, the outcome of the single blocking
`POST /predictions/{id}/wait` request, and the settled outcome of the byte
fetch.  Every observable effect (network call, sleep, progress-callback
invocation) is recorded in an event list so that claims about "no further
network calls" or "onProgress called once per fetch, in order" become
statements about that list.
-/

namespace Synexa

/-- Mirror of the `PredictionResponse` record of src/index.ts.  Field types
follow the TypeScript declarations (`string | null` becomes `Option String`;
the `output` array becomes `Option (List String)`).  `input` values and
`metrics` are opaque to all control flow and are carried as inert data. -/
structure PredictionResponse where
  id : String
  model : String
  version : Option String
  input : List (String × String)
  logs : Option String
  output : Option (List String)
  error : Option String
  status : String
  created_at : String
  started_at : Option String
  completed_at : Option String
  deriving DecidableEq, Repr

/-- The two values of `WaitOptions.type` in src/index.ts. -/
inductive WaitType where
  | poll
  | block
  deriving DecidableEq, Repr

/-- Mirror of `WaitOptions`: every field is optional. -/
structure WaitOptions where
  type : Option WaitType
  interval : Option Nat
  timeout : Option Nat
  deriving DecidableEq, Repr

/-- JavaScript `x || d` on an optional number: `undefined` and `0` are falsy,
so both yield the default. -/
def jsOrNat : Option Nat → Nat → Nat
  | some n, d => if n = 0 then d else n
  | none, d => d

/-- JavaScript `options.type || 'block'`. -/
def jsOrType : Option WaitType → WaitType
  | some t => t
  | none => WaitType.block

/-- Interpolation of a `string | null` value into a template literal:
`null` prints as "null". -/
def nullableText : Option String → String
  | some s => s
  | none => "null"

/-- The loop guard of `waitWithPolling`:
`status !== 'succeeded' && status !== 'failed'`. -/
def nonTerminal (status : String) : Bool :=
  status != "succeeded" && status != "failed"

/-- The `AbortSignal`: `none` is an absent signal; `some f` reports `f k`
as the value of `signal.aborted` at the k-th read. -/
abbrev Signal : Type := Option (Nat → Bool)

/-- `signal?.aborted` at the k-th read. -/
def sigRead : Signal → Nat → Bool
  | some f, k => f k
  | none, _ => false

/-- The distinct `throw new Error(...)` sites of the client, keyed by the
spec's error taxonomy, each carrying the message the code builds. -/
inductive JsError where
  | predictionFailed (msg : String)
  | cancelled
  | noOutput
  | typeError
  | createFailed (msg : String)
  deriving DecidableEq, Repr

/-- Result of an operation run against a finite oracle: `diverged` means the
polling loop would keep looping past the supplied response trace. -/
inductive Outcome (α : Type) where
  | ok (a : α)
  | err (e : JsError)
  | diverged
  deriving DecidableEq, Repr

/-- Observable effects, in program order. -/
inductive Event where
  | netCreate (model : String)
  | netGet (id : String)
  | netBlockWait (id : String) (timeout : Nat)
  | sleepFor (ms : Nat)
  | progressCall (p : PredictionResponse)
  deriving DecidableEq, Repr

/-- `true` exactly on the events that are network requests. -/
def isNetwork : Event → Bool
  | Event.netCreate _ => true
  | Event.netGet _ => true
  | Event.netBlockWait _ _ => true
  | _ => false

/-- Number of network requests in an event trace. -/
def networkCalls : List Event → Nat
  | [] => 0
  | e :: rest => (if isNetwork e then 1 else 0) + networkCalls rest

/-- Number of `getPrediction` status fetches in an event trace. -/
def fetchCount : List Event → Nat
  | [] => 0
  | Event.netGet _ :: rest => fetchCount rest + 1
  | Event.netCreate _ :: rest => fetchCount rest
  | Event.netBlockWait _ _ :: rest => fetchCount rest
  | Event.sleepFor _ :: rest => fetchCount rest
  | Event.progressCall _ :: rest => fetchCount rest

/-- The snapshots passed to `onProgress`, in invocation order. -/
def progressTrace : List Event → List PredictionResponse
  | [] => []
  | Event.progressCall p :: rest => p :: progressTrace rest
  | Event.netGet _ :: rest => progressTrace rest
  | Event.netCreate _ :: rest => progressTrace rest
  | Event.netBlockWait _ _ :: rest => progressTrace rest
  | Event.sleepFor _ :: rest => progressTrace rest

/-- The `while` loop of `waitWithPolling` (src/index.ts lines 97-114), run
against the trace `responses` of snapshots that successive `getPrediction`
calls return; `k` counts the `signal?.aborted` reads.  Each iteration:
check the guard, check cancellation, sleep, fetch, report progress. -/
def pollLoop (signal : Signal) (hasProgress : Bool) (interval : Nat) :
    Nat → PredictionResponse → List PredictionResponse →
      Outcome PredictionResponse × List Event
  | k, cur, responses =>
    if nonTerminal cur.status then
      if sigRead signal k then
        (Outcome.err JsError.cancelled, [])
      else
        match responses with
        | [] => (Outcome.diverged, [Event.sleepFor interval])
        | r :: rest =>
          let next := pollLoop signal hasProgress interval (k + 1) r rest
          (next.1,
            Event.sleepFor interval :: Event.netGet cur.id ::
              ((if hasProgress then [Event.progressCall r] else []) ++ next.2))
    else if cur.status == "failed" then
      (Outcome.err (JsError.predictionFailed
        ("Prediction failed: " ++ nullableText cur.error)), [])
    else
      (Outcome.ok cur, [])

/-- `waitWithPolling` (src/index.ts lines 88-115): resolve the interval with
`options.interval || 500` and run the loop on the initial snapshot. -/
def waitWithPolling (prediction : PredictionResponse) (options : WaitOptions)
    (signal : Signal) (hasProgress : Bool) (responses : List PredictionResponse) :
    Outcome PredictionResponse × List Event :=
  pollLoop signal hasProgress (jsOrNat options.interval 500) 0 prediction responses

/-- Outcome of the single blocking `POST /predictions/{id}/wait` request:
a response body, a rejection whose error has `name === 'AbortError'`
(cancellation observed by the transport), or any other failure. -/
inductive BlockOutcome where
  | response (r : PredictionResponse)
  | abortNamed
  | otherFailure
  deriving DecidableEq, Repr

/-- `waitWithBlock` (src/index.ts lines 117-147).  Note that when the
blocking response has `status === 'failed'`, the `throw` at line 136 is
raised inside the same `try` block: the `catch` at line 140 receives it, its
`name` is `"Error"`, not `"AbortError"`, so control falls through to the
polling fallback at line 145 instead of propagating the failure. -/
def waitWithBlock (prediction : PredictionResponse) (options : WaitOptions)
    (signal : Signal) (hasProgress : Bool)
    (blockOutcome : BlockOutcome) (responses : List PredictionResponse) :
    Outcome PredictionResponse × List Event :=
  let reqEv := Event.netBlockWait prediction.id (jsOrNat options.timeout 60)
  match blockOutcome with
  | BlockOutcome.response result =>
    let progEvs := if hasProgress then [Event.progressCall result] else []
    if result.status == "failed" then
      let fb := waitWithPolling prediction options signal hasProgress responses
      (fb.1, reqEv :: (progEvs ++ fb.2))
    else
      (Outcome.ok result, reqEv :: progEvs)
  | BlockOutcome.abortNamed =>
    (Outcome.err JsError.cancelled, [reqEv])
  | BlockOutcome.otherFailure =>
    let fb := waitWithPolling prediction options signal hasProgress responses
    (fb.1, reqEv :: fb.2)

/-- `wait` (src/index.ts lines 149-166): initial progress call, then dispatch
on `options.type || 'block'`. -/
def wait (prediction : PredictionResponse) (options : WaitOptions)
    (signal : Signal) (hasProgress : Bool)
    (blockOutcome : BlockOutcome) (responses : List PredictionResponse) :
    Outcome PredictionResponse × List Event :=
  let initEvs := if hasProgress then [Event.progressCall prediction] else []
  let r :=
    match jsOrType options.type with
    | WaitType.block =>
      waitWithBlock prediction options signal hasProgress blockOutcome responses
    | WaitType.poll =>
      waitWithPolling prediction options signal hasProgress responses
  (r.1, initEvs ++ r.2)

/-! ## FileOutput (src/file-output.ts) -/

/-- The payload a settled `fetch(url).then(res => res.blob())` produces. -/
structure Blob where
  bytes : List Nat
  deriving DecidableEq, Repr

/-- The settled outcome of the byte-fetch promise: the cached `blob_` field
stores the promise itself, so a rejection is cached exactly like a value. -/
inductive FetchResult where
  | ok (b : Blob)
  | fetchFailed (msg : String)
  deriving DecidableEq, Repr

/-- Mirror of the `FileOutput` class state: the wrapped URL and the
`blob_ : Promise<Blob> | null` cache, initially `null`. -/
structure FileOutput where
  url_ : String
  blob_ : Option FetchResult
  deriving DecidableEq, Repr

/-- The `FileOutput` constructor: caches nothing. -/
def FileOutput.make (url : String) : FileOutput :=
  ⟨url, none⟩

/-- `FileOutput.url()` (src/file-output.ts lines 12-14). -/
def FileOutput.url (f : FileOutput) : String :=
  f.url_

/-- `FileOutput.blob()` (src/file-output.ts lines 16-21).  `fetched` is the
oracle for what the underlying fetch would settle to if it were performed.
Returns the observed result, the updated object state, and the number of
underlying fetches this call triggered (0 or 1). -/
def FileOutput.blob (f : FileOutput) (fetched : FetchResult) :
    FetchResult × FileOutput × Nat :=
  match f.blob_ with
  | some b => (b, f, 0)
  | none => (fetched, ⟨f.url_, some fetched⟩, 1)

/-- `n` successive `blob()` calls on `f`; `oracle i` is what the underlying
fetch would settle to if the i-th call performed it.  Returns the list of
observed results, the final object state, and the total number of
underlying fetches. -/
def blobCalls (oracle : Nat → FetchResult) :
    Nat → Nat → FileOutput → List FetchResult × FileOutput × Nat
  | _, 0, f => ([], f, 0)
  | i, n + 1, f =>
    let step := f.blob (oracle i)
    let rest := blobCalls oracle (i + 1) n step.2.1
    (step.1 :: rest.1, rest.2.1, step.2.2 + rest.2.2)

/-! ## runToCompletion (src/index.ts `run`) -/

/-- JavaScript `String.prototype.split` with a one-character separator,
on the character list of the string.  `"".split(c)` is `[""]`, and a
trailing separator yields a trailing empty segment, as in JavaScript. -/
def splitCharList (c : Char) : List Char → List (List Char)
  | [] => [[]]
  | x :: xs =>
    let r := splitCharList c xs
    if x = c then [] :: r
    else
      match r with
      | [] => [[x]]
      | y :: ys => (x :: y) :: ys

/-- `s.split(c)` for a one-character separator `c`. -/
def jsSplit (c : Char) (s : String) : List String :=
  (splitCharList c s.data).map (fun l => ⟨l⟩)

/-- `output.startsWith('http')` (src/index.ts line 194). -/
def startsWithHttp (s : String) : Bool :=
  match s.data with
  | 'h' :: 't' :: 't' :: 'p' :: _ => true
  | _ => false

/-- One element of the list `run` returns. -/
inductive RunOutput where
  | str (s : String)
  | file (f : FileOutput)
  deriving DecidableEq, Repr

/-- The map applied to each output string (src/index.ts lines 193-198). -/
def mapOutput (o : String) : RunOutput :=
  if startsWithHttp o then RunOutput.file (FileOutput.make o) else RunOutput.str o

/-- Outcome of the `POST /predictions` transport call inside
`createPrediction`: a response body, or a failure with the transport's
message (wrapped at src/index.ts line 70). -/
inductive CreateOutcome where
  | ok (r : PredictionResponse)
  | failure (msg : String)
  deriving DecidableEq, Repr

/-- `this.wait(prediction, options.wait, ...)`: an absent `options.wait`
hits the `options: WaitOptions = {}` default of `wait`. -/
def resolveWaitOpts : Option WaitOptions → WaitOptions
  | some w => w
  | none => ⟨none, none, none⟩

/-- `run` (src/index.ts lines 168-199).  The destructuring
`const [owner, model] = identifier.split('/')` leaves `model` undefined when
the identifier has no `/`, and `model.split(':')` then throws a raw
`TypeError` before any network call; that is `JsError.typeError` here.
The second destructuring cannot fail: `split` never returns an empty list. -/
def run (identifier : String) (waitOpts : Option WaitOptions) (signal : Signal)
    (hasProgress : Bool) (createOutcome : CreateOutcome)
    (blockOutcome : BlockOutcome) (responses : List PredictionResponse) :
    Outcome (List RunOutput) × List Event :=
  match jsSplit '/' identifier with
  | [] => (Outcome.err JsError.typeError, [])
  | [_] => (Outcome.err JsError.typeError, [])
  | owner :: model :: _ =>
    let name := match jsSplit ':' model with | n :: _ => n | [] => ""
    let modelStr := owner ++ "/" ++ name
    match createOutcome with
    | CreateOutcome.failure msg =>
      (Outcome.err (JsError.createFailed ("Failed to create prediction: " ++ msg)),
        [Event.netCreate modelStr])
    | CreateOutcome.ok prediction =>
      let w := wait prediction (resolveWaitOpts waitOpts) signal hasProgress
        blockOutcome responses
      let evs := Event.netCreate modelStr :: w.2
      match w.1 with
      | Outcome.err e => (Outcome.err e, evs)
      | Outcome.diverged => (Outcome.diverged, evs)
      | Outcome.ok result =>
        match result.output with
        | none => (Outcome.err JsError.noOutput, evs)
        | some out => (Outcome.ok (out.map mapOutput), evs)

/-! ## Sample snapshots used by concrete witnesses -/

/-- A snapshot with the given id, status, output and error; the inert fields
take fixed values. -/
def samplePred (id status : String) (output : Option (List String))
    (error : Option String) : PredictionResponse :=
  ⟨id, "acme/gen", none, [("prompt", "x")], none, output, error, status,
    "2024-01-01", none, none⟩

/-- A freshly created, non-terminal snapshot. -/
def startingPred : PredictionResponse :=
  samplePred "p1" "starting" none none

/-- An intermediate non-terminal snapshot. -/
def processingPred : PredictionResponse :=
  samplePred "p1" "processing" none none

/-- A terminal successful snapshot with one output. -/
def succeededPred : PredictionResponse :=
  samplePred "p1" "succeeded" (some ["hello"]) none

/-- A terminal failed snapshot with error text "boom". -/
def failedPred : PredictionResponse :=
  samplePred "p1" "failed" none (some "boom")

/-! ## Trace bookkeeping lemmas -/

theorem progressTrace_append (a b : List Event) :
    progressTrace (a ++ b) = progressTrace a ++ progressTrace b := by
  induction a with
  | nil => rfl
  | cons e rest ih => cases e <;> simp [progressTrace, ih]

theorem fetchCount_append (a b : List Event) :
    fetchCount (a ++ b) = fetchCount a + fetchCount b := by
  induction a with
  | nil => simp [fetchCount]
  | cons e rest ih => cases e <;> simp +arith [fetchCount, ih]

/-- Core polling lemma: starting from a non-terminal snapshot, with the
signal never aborted and a response trace of non-terminal snapshots followed
by one `succeeded` snapshot, the loop returns the last snapshot, reports
exactly the fetched snapshots in order, and fetches once per response. -/
theorem pollLoop_succ (signal : Signal) (hasProgress : Bool) (interval : Nat)
    (s : PredictionResponse) (hs : s.status = "succeeded")
    (hsig : ∀ j, sigRead signal j = false) :
    ∀ (mids : List PredictionResponse) (k : Nat) (cur : PredictionResponse),
      nonTerminal cur.status = true →
      (∀ r ∈ mids, nonTerminal r.status = true) →
      (pollLoop signal hasProgress interval k cur (mids ++ [s])).1 = Outcome.ok s ∧
      progressTrace (pollLoop signal hasProgress interval k cur (mids ++ [s])).2 =
        (if hasProgress then mids ++ [s] else []) ∧
      fetchCount (pollLoop signal hasProgress interval k cur (mids ++ [s])).2 =
        mids.length + 1 := by
  have hterm : nonTerminal s.status = false := by rw [hs]; decide
  have hfail : (s.status == "failed") = false := by rw [hs]; decide
  intro mids
  induction mids with
  | nil =>
    intro k cur hcur _
    rw [List.nil_append, pollLoop]
    simp only [hcur, if_true, hsig, Bool.false_eq_true, if_false]
    rw [pollLoop]
    simp only [hterm, Bool.false_eq_true, if_false, hfail]
    cases hasProgress <;>
      simp [progressTrace, fetchCount, progressTrace_append, fetchCount_append]
  | cons m mids ih =>
    intro k cur hcur hmids
    have hm : nonTerminal m.status = true := hmids m (by simp)
    obtain ⟨h1, h2, h3⟩ :=
      ih (k + 1) m hm (fun r hr => hmids r (by simp [hr]))
    rw [List.cons_append, pollLoop]
    simp only [hcur, if_true, hsig, Bool.false_eq_true, if_false]
    refine ⟨h1, ?_, ?_⟩
    · cases hasProgress <;>
        simp_all [progressTrace, progressTrace_append]
    · cases hasProgress <;>
        simp_all +arith [fetchCount, fetchCount_append]

/-- A snapshot that is already `succeeded` exits the loop at once, with no
events, whatever the response trace. -/
theorem pollLoop_at_succeeded (signal : Signal) (hasProgress : Bool)
    (interval k : Nat) (cur : PredictionResponse)
    (responses : List PredictionResponse) (h : cur.status = "succeeded") :
    pollLoop signal hasProgress interval k cur responses =
      (Outcome.ok cur, []) := by
  have h1 : nonTerminal cur.status = false := by rw [h]; decide
  have h2 : (cur.status == "failed") = false := by rw [h]; decide
  rw [pollLoop.eq_def]
  simp [h1, h2]

/-- A snapshot that is already `failed` raises `PredictionFailed` at once,
with no events, whatever the response trace. -/
theorem pollLoop_at_failed (signal : Signal) (hasProgress : Bool)
    (interval k : Nat) (cur : PredictionResponse)
    (responses : List PredictionResponse) (h : cur.status = "failed") :
    pollLoop signal hasProgress interval k cur responses =
      (Outcome.err (JsError.predictionFailed
        ("Prediction failed: " ++ nullableText cur.error)), []) := by
  have h1 : nonTerminal cur.status = false := by rw [h]; decide
  have h2 : (cur.status == "failed") = true := by rw [h]; decide
  rw [pollLoop.eq_def]
  simp [h1, h2]

/-- C3: in poll mode, for a response trace of non-terminal snapshots ending
in a `succeeded` snapshot, `wait` returns exactly the last fetched snapshot,
and `onProgress` is invoked once with the initial snapshot before any
waiting, then once per fetched snapshot, in observation order. -/
theorem wait_poll_returns_last_snapshot
    (prediction s : PredictionResponse) (mids : List PredictionResponse)
    (options : WaitOptions) (signal : Signal) (blockOutcome : BlockOutcome)
    (htype : options.type = some WaitType.poll)
    (h0 : nonTerminal prediction.status = true)
    (hm : ∀ r ∈ mids, nonTerminal r.status = true)
    (hs : s.status = "succeeded")
    (hsig : ∀ j, sigRead signal j = false) :
    (wait prediction options signal true blockOutcome (mids ++ [s])).1 =
      Outcome.ok s ∧
    progressTrace
        (wait prediction options signal true blockOutcome (mids ++ [s])).2 =
      prediction :: (mids ++ [s]) ∧
    fetchCount
        (wait prediction options signal true blockOutcome (mids ++ [s])).2 =
      mids.length + 1 := by
  obtain ⟨h1, h2, h3⟩ :=
    pollLoop_succ signal true (jsOrNat options.interval 500) s hs hsig mids 0
      prediction h0 hm
  simp [wait, waitWithPolling, htype, jsOrType, progressTrace, fetchCount,
    h1, h2, h3]

/-- Witness for C3: the spec's scenario — `starting`, then responses
`processing`, `succeeded`; the result is the final snapshot, `onProgress`
fires three times in order, and exactly two fetches occur. -/
theorem wait_poll_returns_last_snapshot_witness :
    (wait startingPred ⟨some WaitType.poll, some 10, none⟩ none true
        BlockOutcome.otherFailure [processingPred, succeededPred]).1 =
      Outcome.ok succeededPred ∧
    progressTrace
        (wait startingPred ⟨some WaitType.poll, some 10, none⟩ none true
          BlockOutcome.otherFailure [processingPred, succeededPred]).2 =
      [startingPred, processingPred, succeededPred] ∧
    fetchCount
        (wait startingPred ⟨some WaitType.poll, some 10, none⟩ none true
          BlockOutcome.otherFailure [processingPred, succeededPred]).2 = 2 := by
  have h := wait_poll_returns_last_snapshot startingPred succeededPred
    [processingPred] ⟨some WaitType.poll, some 10, none⟩ none
    BlockOutcome.otherFailure rfl (by decide) (by decide) (by decide)
    (fun _ => rfl)
  simpa using h

/-- C4: a handle already terminal at entry, in poll mode: no network call at
all, the only event is the single initial `onProgress` invocation, the
`succeeded` snapshot is returned unchanged, and `failed` raises
`PredictionFailed`. -/
theorem wait_poll_terminal_no_fetch (prediction : PredictionResponse)
    (options : WaitOptions) (signal : Signal) (hasProgress : Bool)
    (blockOutcome : BlockOutcome) (responses : List PredictionResponse)
    (htype : options.type = some WaitType.poll)
    (hterm : prediction.status = "succeeded" ∨ prediction.status = "failed") :
    networkCalls
        (wait prediction options signal hasProgress blockOutcome responses).2 =
      0 ∧
    (wait prediction options signal hasProgress blockOutcome responses).2 =
      (if hasProgress then [Event.progressCall prediction] else []) ∧
    (prediction.status = "succeeded" →
      (wait prediction options signal hasProgress blockOutcome responses).1 =
        Outcome.ok prediction) ∧
    (prediction.status = "failed" →
      (wait prediction options signal hasProgress blockOutcome responses).1 =
        Outcome.err (JsError.predictionFailed
          ("Prediction failed: " ++ nullableText prediction.error))) := by
  rcases hterm with h | h
  · simp only [wait, htype, jsOrType, waitWithPolling,
      pollLoop_at_succeeded signal hasProgress (jsOrNat options.interval 500) 0
        prediction responses h]
    cases hasProgress <;> simp [networkCalls, isNetwork, h]
  · simp only [wait, htype, jsOrType, waitWithPolling,
      pollLoop_at_failed signal hasProgress (jsOrNat options.interval 500) 0
        prediction responses h]
    cases hasProgress <;> simp [networkCalls, isNetwork, h]

/-- Witness for C4: an already-`succeeded` handle in poll mode yields only
the initial progress event and the unchanged snapshot, with zero network
calls; the theorem is applied at this concrete input. -/
theorem wait_poll_terminal_no_fetch_witness :
    networkCalls
        (wait succeededPred ⟨some WaitType.poll, none, none⟩ none true
          BlockOutcome.otherFailure []).2 = 0 ∧
    (wait succeededPred ⟨some WaitType.poll, none, none⟩ none true
        BlockOutcome.otherFailure []).2 = [Event.progressCall succeededPred] ∧
    (wait succeededPred ⟨some WaitType.poll, none, none⟩ none true
        BlockOutcome.otherFailure []).1 = Outcome.ok succeededPred := by
  have h := wait_poll_terminal_no_fetch succeededPred
    ⟨some WaitType.poll, none, none⟩ none true BlockOutcome.otherFailure []
    rfl (Or.inl (by decide))
  exact ⟨h.1, by simpa using h.2.1, h.2.2.1 (by decide)⟩

/-- C1 (code bug witness): block mode, handle still `starting`, blocking
response `failed` with error "boom".  The `PredictionFailed` throw at
src/index.ts line 136 is raised inside its own `try`, so the `catch` at line
140 receives it; its name is not `AbortError`, so the coordinator silently
falls back to polling: a further `getPrediction` call is issued after the
blocking response, and the failure only resurfaces through the polling
loop's own terminal check. -/
theorem wait_block_failed_response_falls_back :
    (wait startingPred ⟨some WaitType.block, none, none⟩ none true
        (BlockOutcome.response failedPred) [failedPred]).1 =
      Outcome.err (JsError.predictionFailed "Prediction failed: boom") ∧
    (wait startingPred ⟨some WaitType.block, none, none⟩ none true
        (BlockOutcome.response failedPred) [failedPred]).2 =
      [Event.progressCall startingPred,
        Event.netBlockWait "p1" 60,
        Event.progressCall failedPred,
        Event.sleepFor 500,
        Event.netGet "p1",
        Event.progressCall failedPred] ∧
    fetchCount
        (wait startingPred ⟨some WaitType.block, none, none⟩ none true
          (BlockOutcome.response failedPred) [failedPred]).2 = 1 := by
  decide

/-- C2: when the blocking request fails for any reason other than
cancellation, the coordinator falls back to polling with the same handle,
options, signal and progress callback; the failed blocking attempt surfaces
no error of its own (the outcome is exactly the polling loop's outcome) and
contributes only its request event to the trace. -/
theorem wait_block_fallback (prediction : PredictionResponse)
    (options : WaitOptions) (signal : Signal) (hasProgress : Bool)
    (responses : List PredictionResponse)
    (htype : jsOrType options.type = WaitType.block) :
    wait prediction options signal hasProgress BlockOutcome.otherFailure
        responses =
      ((waitWithPolling prediction options signal hasProgress responses).1,
        (if hasProgress then [Event.progressCall prediction] else []) ++
          Event.netBlockWait prediction.id (jsOrNat options.timeout 60) ::
            (waitWithPolling prediction options signal hasProgress
              responses).2) := by
  simp [wait, waitWithBlock, htype]

/-- Witness for C2: default (block) mode, the blocking request throws a
network error, and polling still reaches the eventual `succeeded` snapshot. -/
theorem wait_block_fallback_witness :
    wait startingPred ⟨none, none, none⟩ none true BlockOutcome.otherFailure
        [succeededPred] =
      (Outcome.ok succeededPred,
        [Event.progressCall startingPred,
          Event.netBlockWait "p1" 60,
          Event.sleepFor 500,
          Event.netGet "p1",
          Event.progressCall succeededPred]) := by
  have h := wait_block_fallback startingPred ⟨none, none, none⟩ none true
    [succeededPred] rfl
  exact h.trans (by decide)

/-- C6: observed cancellation yields `Cancelled`.  Poll mode with a
non-terminal handle and a token already aborted at the first check fails
immediately, with no network call (the trace holds only the initial progress
event); block mode with the request cancelled mid-flight (a rejection named
`AbortError`) fails with `Cancelled` as well. -/
theorem wait_cancelled (prediction : PredictionResponse)
    (options : WaitOptions) (signal : Signal) (hasProgress : Bool)
    (blockOutcome : BlockOutcome) (responses : List PredictionResponse) :
    (options.type = some WaitType.poll → nonTerminal prediction.status = true →
      sigRead signal 0 = true →
      wait prediction options signal hasProgress blockOutcome responses =
        (Outcome.err JsError.cancelled,
          if hasProgress then [Event.progressCall prediction] else [])) ∧
    (jsOrType options.type = WaitType.block →
      wait prediction options signal hasProgress BlockOutcome.abortNamed
          responses =
        (Outcome.err JsError.cancelled,
          (if hasProgress then [Event.progressCall prediction] else []) ++
            [Event.netBlockWait prediction.id
              (jsOrNat options.timeout 60)])) := by
  constructor
  · intro ht hnt hab
    simp only [wait, ht, jsOrType, waitWithPolling]
    rw [pollLoop.eq_def]
    simp [hnt, hab]
  · intro hb
    simp [wait, hb, waitWithBlock]

/-- Witness for C6: both cancellation shapes at concrete inputs — an
already-aborted token in poll mode, and an aborted blocking request. -/
theorem wait_cancelled_witness :
    wait startingPred ⟨some WaitType.poll, none, none⟩ (some fun _ => true)
        true BlockOutcome.otherFailure [] =
      (Outcome.err JsError.cancelled, [Event.progressCall startingPred]) ∧
    wait startingPred ⟨some WaitType.block, none, none⟩ none true
        BlockOutcome.abortNamed [] =
      (Outcome.err JsError.cancelled,
        [Event.progressCall startingPred, Event.netBlockWait "p1" 60]) := by
  constructor
  · have h := (wait_cancelled startingPred ⟨some WaitType.poll, none, none⟩
      (some fun _ => true) true BlockOutcome.otherFailure []).1 rfl
      (by decide) rfl
    exact h.trans (by decide)
  · have h := (wait_cancelled startingPred ⟨some WaitType.block, none, none⟩
      none true BlockOutcome.abortNamed []).2 rfl
    exact h.trans (by decide)

/-! ## FileOutput memoization -/

/-- A `blob()` call on an object whose cache is populated returns the cached
result, leaves the object unchanged, and performs no fetch. -/
theorem blob_cached (f : FileOutput) (b fetched : FetchResult)
    (h : f.blob_ = some b) : f.blob fetched = (b, f, 0) := by
  simp [FileOutput.blob, h]

/-- Any number of `blob()` calls on an object whose cache is populated
observe the cached result and perform no fetch. -/
theorem blobCalls_cached (oracle : Nat → FetchResult) (b : FetchResult) :
    ∀ (n i : Nat) (f : FileOutput), f.blob_ = some b →
      blobCalls oracle i n f = (List.replicate n b, f, 0) := by
  intro n
  induction n with
  | zero => intro i f h; simp [blobCalls]
  | succ n ih =>
    intro i f h
    simp [blobCalls, FileOutput.blob, h, ih (i + 1) f h, List.replicate_succ]

/-- C5: on a freshly constructed Output Reference, `n ≥ 1` successive
`blob()` calls trigger exactly one underlying fetch — the first call caches
the fetch's settled outcome (a success or a failure alike), every later call
observes that same cached outcome, and the oracle is never consulted
again. -/
theorem blob_fetches_once (url : String) (oracle : Nat → FetchResult)
    (i n : Nat) (hn : 0 < n) :
    blobCalls oracle i n (FileOutput.make url) =
      (List.replicate n (oracle i),
        ⟨url, some (oracle i)⟩, 1) := by
  cases n with
  | zero => exact absurd hn (by decide)
  | succ n =>
    have hc := blobCalls_cached oracle (oracle i) n (i + 1)
      ⟨url, some (oracle i)⟩ rfl
    simp [blobCalls, FileOutput.blob, FileOutput.make, hc, List.replicate_succ]

/-- Witness for C5: two calls on one reference whose first fetch fails —
both calls observe the same failure, the fetch runs once, and there is no
retry (the second oracle value is never used). -/
theorem blob_fetches_once_witness :
    blobCalls
        (fun j => if j = 0 then FetchResult.fetchFailed "HTTP 500"
          else FetchResult.ok ⟨[1]⟩)
        0 2 (FileOutput.make "https://host/file.png") =
      ([FetchResult.fetchFailed "HTTP 500", FetchResult.fetchFailed "HTTP 500"],
        ⟨"https://host/file.png", some (FetchResult.fetchFailed "HTTP 500")⟩,
        1) := by
  have h := blob_fetches_once "https://host/file.png"
    (fun j => if j = 0 then FetchResult.fetchFailed "HTTP 500"
      else FetchResult.ok ⟨[1]⟩) 0 2 (by decide)
  exact h.trans (by decide)

/-! ## run: output mapping, NoOutput, identifier parsing -/

/-- A successful snapshot carrying one URL-shaped output. -/
def urlOutPred : PredictionResponse :=
  samplePred "p2" "succeeded" (some ["https://host/file.png"]) none

/-- A successful snapshot with `output = null`. -/
def noOutPred : PredictionResponse :=
  samplePred "p3" "succeeded" none none

/-- A successful snapshot with an empty output list. -/
def emptyOutPred : PredictionResponse :=
  samplePred "p4" "succeeded" (some []) none

/-- C7: when `wait` hands `run` a snapshot whose output list is present,
`run` maps the list element-wise and order-preservingly with `mapOutput`:
a string starting with "http" is wrapped in a `FileOutput` whose `url()` is
exactly that string, and any other string passes through unchanged. -/
theorem run_maps_outputs (identifier owner mdl : String)
    (restSegs : List String) (waitOpts : Option WaitOptions) (signal : Signal)
    (hasProgress : Bool) (prediction result : PredictionResponse)
    (blockOutcome : BlockOutcome) (responses : List PredictionResponse)
    (l : List String)
    (hsplit : jsSplit '/' identifier = owner :: mdl :: restSegs)
    (hwait : (wait prediction (resolveWaitOpts waitOpts) signal hasProgress
      blockOutcome responses).1 = Outcome.ok result)
    (hout : result.output = some l) :
    (run identifier waitOpts signal hasProgress (CreateOutcome.ok prediction)
        blockOutcome responses).1 = Outcome.ok (l.map mapOutput) ∧
    (∀ o, startsWithHttp o = true →
      mapOutput o = RunOutput.file (FileOutput.make o) ∧
        FileOutput.url (FileOutput.make o) = o) ∧
    (∀ o, startsWithHttp o = false → mapOutput o = RunOutput.str o) := by
  refine ⟨?_, ?_, ?_⟩
  · simp [run, hsplit, hwait, hout]
  · intro o ho
    simp [mapOutput, ho, FileOutput.make, FileOutput.url]
  · intro o ho
    simp [mapOutput, ho]

/-- Witness for C7: the spec's scenario — output
`["https://host/file.png"]` maps to one Output Reference whose `url()`
returns `"https://host/file.png"` exactly. -/
theorem run_maps_outputs_witness :
    (run "acme/gen" (some ⟨some WaitType.poll, none, none⟩) none false
        (CreateOutcome.ok urlOutPred) BlockOutcome.otherFailure []).1 =
      Outcome.ok [RunOutput.file ⟨"https://host/file.png", none⟩] ∧
    FileOutput.url ⟨"https://host/file.png", none⟩ = "https://host/file.png" := by
  have h := run_maps_outputs "acme/gen" "acme" "gen" []
    (some ⟨some WaitType.poll, none, none⟩) none false urlOutPred urlOutPred
    BlockOutcome.otherFailure [] ["https://host/file.png"] (by decide)
    (by decide) (by decide)
  exact ⟨h.1.trans (by decide), (h.2.1 "https://host/file.png" (by decide)).2⟩

/-- C8: a terminal `succeeded` snapshot whose `output` is null makes `run`
fail with `NoOutput`. -/
theorem run_no_output (identifier owner mdl : String)
    (restSegs : List String) (waitOpts : Option WaitOptions) (signal : Signal)
    (hasProgress : Bool) (prediction result : PredictionResponse)
    (blockOutcome : BlockOutcome) (responses : List PredictionResponse)
    (hsplit : jsSplit '/' identifier = owner :: mdl :: restSegs)
    (hwait : (wait prediction (resolveWaitOpts waitOpts) signal hasProgress
      blockOutcome responses).1 = Outcome.ok result)
    (_hstatus : result.status = "succeeded")
    (hout : result.output = none) :
    (run identifier waitOpts signal hasProgress (CreateOutcome.ok prediction)
        blockOutcome responses).1 = Outcome.err JsError.noOutput := by
  simp [run, hsplit, hwait, hout]

/-- Witness for C8: a `succeeded` snapshot with `output = null` — `run`
fails with `NoOutput`. -/
theorem run_no_output_witness :
    (run "acme/gen" (some ⟨some WaitType.poll, none, none⟩) none false
        (CreateOutcome.ok noOutPred) BlockOutcome.otherFailure []).1 =
      Outcome.err JsError.noOutput := by
  exact run_no_output "acme/gen" "acme" "gen" []
    (some ⟨some WaitType.poll, none, none⟩) none false noOutPred noOutPred
    BlockOutcome.otherFailure [] (by decide) (by decide) (by decide) (by decide)

/-- C10: a terminal `succeeded` snapshot whose output is the empty list is
treated as present — the falsy-output check only fires on null — so `run`
returns the empty result list instead of failing with `NoOutput`. -/
theorem run_empty_output (identifier owner mdl : String)
    (restSegs : List String) (waitOpts : Option WaitOptions) (signal : Signal)
    (hasProgress : Bool) (prediction result : PredictionResponse)
    (blockOutcome : BlockOutcome) (responses : List PredictionResponse)
    (hsplit : jsSplit '/' identifier = owner :: mdl :: restSegs)
    (hwait : (wait prediction (resolveWaitOpts waitOpts) signal hasProgress
      blockOutcome responses).1 = Outcome.ok result)
    (_hstatus : result.status = "succeeded")
    (hout : result.output = some []) :
    (run identifier waitOpts signal hasProgress (CreateOutcome.ok prediction)
        blockOutcome responses).1 = Outcome.ok [] ∧
    (run identifier waitOpts signal hasProgress (CreateOutcome.ok prediction)
        blockOutcome responses).1 ≠ Outcome.err JsError.noOutput := by
  have h : (run identifier waitOpts signal hasProgress
      (CreateOutcome.ok prediction) blockOutcome responses).1 =
      Outcome.ok [] := by
    simp [run, hsplit, hwait, hout]
  exact ⟨h, by simp [h]⟩

/-- Witness for C10: a `succeeded` snapshot with `output = []` — `run`
returns `[]` and does not raise `NoOutput`. -/
theorem run_empty_output_witness :
    (run "acme/gen" (some ⟨some WaitType.poll, none, none⟩) none false
        (CreateOutcome.ok emptyOutPred) BlockOutcome.otherFailure []).1 =
      Outcome.ok [] := by
  exact (run_empty_output "acme/gen" "acme" "gen" []
    (some ⟨some WaitType.poll, none, none⟩) none false emptyOutPred
    emptyOutPred BlockOutcome.otherFailure [] (by decide) (by decide)
    (by decide) (by decide)).1

/-! ## Identifier parsing -/

/-- `split` on a character that does not occur returns the whole list as the
single segment. -/
theorem splitCharList_of_not_mem (c : Char) (l : List Char) (h : c ∉ l) :
    splitCharList c l = [l] := by
  induction l with
  | nil => rfl
  | cons x xs ih =>
    have hx : ¬x = c := fun e => h (by rw [e]; exact List.mem_cons_self c xs)
    have hxs : c ∉ xs := fun m => h (List.mem_cons_of_mem x m)
    simp [splitCharList, hx, ih hxs]

/-- `s.split(c)` is `[s]` when `c` does not occur in `s`. -/
theorem jsSplit_no_sep (c : Char) (s : String) (h : c ∉ s.data) :
    jsSplit c s = [s] := by
  unfold jsSplit
  rw [splitCharList_of_not_mem c s.data h]
  cases s
  rfl

/-- C9 (amended): identifier parsing in `run` fails with a raw type error,
before any network call, exactly when the identifier contains no `/`;
for any identifier containing a `/` it succeeds, and the submitted model
string is `owner ++ "/" ++ name` where `owner` is the text before the first
`/` and `name` is the second `/`-segment truncated at its first `:` — every
further segment is discarded, not only a `:version` suffix. -/
theorem run_parse (identifier : String) (waitOpts : Option WaitOptions)
    (signal : Signal) (hasProgress : Bool) (createOutcome : CreateOutcome)
    (blockOutcome : BlockOutcome) (responses : List PredictionResponse) :
    ('/' ∉ identifier.data →
      run identifier waitOpts signal hasProgress createOutcome blockOutcome
          responses = (Outcome.err JsError.typeError, [])) ∧
    (∀ owner mdl restSegs, jsSplit '/' identifier = owner :: mdl :: restSegs →
      ∀ nm tail, jsSplit ':' mdl = nm :: tail →
        (run identifier waitOpts signal hasProgress createOutcome blockOutcome
            responses).2.head? =
          some (Event.netCreate (owner ++ "/" ++ nm))) := by
  constructor
  · intro h
    simp [run, jsSplit_no_sep '/' identifier h]
  · intro owner mdl restSegs hsplit nm tail hname
    cases createOutcome with
    | failure msg => simp [run, hsplit, hname]
    | ok prediction =>
      cases hw : wait prediction (resolveWaitOpts waitOpts) signal hasProgress
          blockOutcome responses with
      | mk o evs =>
        cases o with
        | ok r =>
          cases hr : r.output with
          | none => simp [run, hsplit, hname, hw, hr]
          | some l => simp [run, hsplit, hname, hw, hr]
        | err e => simp [run, hsplit, hname, hw]
        | diverged => simp [run, hsplit, hname, hw]

/-- Witness for C9 (amended): a slash-free identifier type-errors with no
events; `"owner/gen:v2"` submits exactly `"owner/gen"`. -/
theorem run_parse_witness :
    run "noslash" none none false (CreateOutcome.failure "down")
        BlockOutcome.otherFailure [] = (Outcome.err JsError.typeError, []) ∧
    (run "owner/gen:v2" none none false (CreateOutcome.failure "down")
        BlockOutcome.otherFailure []).2.head? =
      some (Event.netCreate "owner/gen") := by
  constructor
  · exact (run_parse "noslash" none none false (CreateOutcome.failure "down")
      BlockOutcome.otherFailure []).1 (by decide)
  · exact (run_parse "owner/gen:v2" none none false
      (CreateOutcome.failure "down") BlockOutcome.otherFailure []).2
      "owner" "gen:v2" [] (by decide) "gen" ["v2"] (by decide)

/-- C9 counterexample: `"a/b/c"` contains a `/` yet is not of the form
`owner/name` or `owner/name:version` in the claim's sense: parsing does not
fail, a network call is issued, and the submitted model string is `"a/b"` —
but for every decomposition `"a/b/c" = owner ++ "/" ++ name`, the claim
would predict the submission `owner ++ "/" ++ name`, which is never
`"a/b"`. -/
theorem run_parse_counterexample :
    (run "a/b/c" none none false (CreateOutcome.failure "down")
        BlockOutcome.otherFailure []).1 ≠ Outcome.err JsError.typeError ∧
    (run "a/b/c" none none false (CreateOutcome.failure "down")
        BlockOutcome.otherFailure []).2 = [Event.netCreate "a/b"] ∧
    (∀ owner nm : String, "a/b/c" = owner ++ "/" ++ nm →
      owner ++ "/" ++ nm ≠ "a/b") := by
  refine ⟨by decide, by decide, ?_⟩
  intro owner nm h
  rw [← h]
  decide

end Synexa
